import Mathlib

/-!
Verification of the DFHack fuzzer (`dfhack-fuzzer.py`).

The script supervises a Dwarf Fortress process (`DFInstance`), enumerates
DFHack commands (`get_commands`), invokes each one and classifies the outcome
(`check`).  Below we give a shallow embedding of those functions and prove the
specified properties about them.

Python string methods are modelled structurally over `List Char` so that the
kernel can evaluate them: `split`, `strip`, `rstrip`, `lower`, `startswith`,
`in` (substring test), `replace` and list `index`.  Lowercasing and the
whitespace set are the ASCII fragment of Python's, which covers every string
the fuzzer matches on.
-/

namespace DFFuzz

/-- Python's whitespace test (ASCII fragment), as used by `strip`/`rstrip`. -/
def pyIsSpace (c : Char) : Bool :=
  c == ' ' || c == '\t' || c == '\n' || c == '\r' || c == '\x0b' || c == '\x0c'

/-- `s.split(sep)` for a non-empty separator, by fuel recursion: scan left to
right, cutting at each leftmost non-overlapping occurrence of `sep`.
`cur` holds the current field reversed; fuel `s.length` always suffices. -/
def splitCharsAux (sep : List Char) : Nat → List Char → List Char → List (List Char)
  | _, cur, [] => [cur.reverse]
  | 0, cur, rest => [cur.reverse ++ rest]
  | fuel + 1, cur, c :: cs =>
    if sep.isPrefixOf (c :: cs) then
      cur.reverse :: splitCharsAux sep fuel [] ((c :: cs).drop sep.length)
    else
      splitCharsAux sep fuel (c :: cur) cs

/-- Python `s.split(sep)` on strings (non-empty `sep`). -/
def pySplit (s sep : String) : List String :=
  (splitCharsAux sep.data s.data.length [] s.data).map (fun l => ⟨l⟩)

/-- Python `s.replace(old, new)` = `new.join(s.split(old))`. -/
def pyReplace (s old new : String) : String :=
  ⟨List.intercalate new.data (splitCharsAux old.data s.data.length [] s.data)⟩

/-- Python `s.strip()`: whitespace removed from both ends. -/
def pyStrip (s : String) : String :=
  ⟨((s.data.dropWhile pyIsSpace).reverse.dropWhile pyIsSpace).reverse⟩

/-- Python `s.rstrip()`: whitespace removed from the right end. -/
def pyRstrip (s : String) : String :=
  ⟨(s.data.reverse.dropWhile pyIsSpace).reverse⟩

/-- Python `s.lower()` (ASCII fragment). -/
def pyLower (s : String) : String := ⟨s.data.map Char.toLower⟩

/-- Python `s.startswith(pat)`. -/
def pyStartsWith (s pat : String) : Bool := pat.data.isPrefixOf s.data

/-- Python's `pat in s` substring test: some suffix of `s` starts with `pat`. -/
def charsContain (pat : List Char) : List Char → Bool
  | [] => pat.isEmpty
  | c :: cs => pat.isPrefixOf (c :: cs) || charsContain pat cs

/-- Python's `pat in s` on strings. -/
def strContains (s pat : String) : Bool := charsContain pat.data s.data

/-- Python `lst.index(x)` on a list of strings, `none` for the `ValueError`. -/
def pyIndex (target : String) : List String → Option Nat
  | [] => none
  | l :: ls => if l == target then some 0 else (pyIndex target ls).map (· + 1)

/-- The crash sentinel checked by `DFInstance.run` and by `check`:
`'In call to ::RunCommand: I/O error in receive header.'`. -/
def sentinelStr : String := "In call to ::RunCommand: I/O error in receive header."

/-- The five buckets used by `check`'s `results` dict:
`ok`, `script_traceback`, `crashed_DF`, `wrong_UI_context`, `failed`. -/
inductive OutcomeCategory
  | ok
  | scriptTraceback
  | crashed
  | wrongContext
  | failed
deriving DecidableEq, Repr

/-- `out.split('\n')[0]` : the first line of the output. -/
def firstLine (out : String) : String := (pySplit out "\n").headD ""

/-- The classification cascade in `check` (source lines 143-155):
`firstline = out.split('\n')[0].strip()`, then the if/elif chain on
`proc.returncode` and `out`.  `cmd` is needed because the traceback
heuristic looks for `'/hack/scripts/' + cmd` in the output. -/
def classify (cmd : String) (returncode : Int) (out : String) : OutcomeCategory :=
  let firstline := pyStrip (firstLine out)
  if returncode == 0 then .ok
  else if strContains out ("/hack/scripts/" ++ cmd) then .scriptTraceback
  else if pyStartsWith out sentinelStr then .crashed
  else if strContains firstline " UI" || strContains (pyLower firstline) "cursor" then .wrongContext
  else .failed

/-- The namespace denylist in `get_commands`: `('devel/', 'ssense', 'stonesense')`. -/
def denylist : List String := ["devel/", "ssense", "stonesense"]

/-- `get_commands` (source lines 120-133), applied to the already decoded
stdout text of `dfhack-run ls -a`.  `none` models the `ValueError` raised by
`lines.index('plugins:')` when the marker line is absent.
- `lines = [line.rstrip() for line in text.split('\n')]`
- `lines = lines[lines.index('plugins:') + 1:]`
- keep lines with `line.startswith('  ') and not line[2] == ' '`
  (parsed lines are rstripped, so a line starting with two spaces always has
  a third character and `line[2]` cannot raise)
- name is `line.split(' - ')[0].strip()`
- drop names that start with a denylist entry. -/
def get_commands (text : String) : Option (List String) :=
  let lines := (pySplit text "\n").map pyRstrip
  match pyIndex "plugins:" lines with
  | none => none
  | some i =>
    let rest := lines.drop (i + 1)
    let commands := (rest.filter
        (fun l => pyStartsWith l "  " && !(l.data.get? 2 == some ' '))).map
      (fun l => pyStrip ((pySplit l " - ").headD ""))
    some (commands.filter (fun c => !(denylist.any (fun p => pyStartsWith c p))))

/-! ## The process supervisor `DFInstance`

`DFInstance` keeps one piece of mutable state, `self._proc`.  A `Popen`
handle is live while its `returncode` is `None`.  The control channel
(`subprocess.run([dfhack-run, *commands])`) is abstracted as an oracle
`resp : List String → Int × String` giving the exit code and decoded stdout
for an argument vector.  Observable side effects (process launch, a
control-channel invocation, the settle sleep, the missing-save warning) are
returned as a trace so that frame conditions can be stated. -/

/-- A `subprocess.Popen` handle: live while `returncode is None`. -/
structure ProcHandle where
  returncode : Option Int
deriving DecidableEq, Repr

/-- The supervisor's state: the `self._proc` field (`None` or a handle). -/
structure DFState where
  proc : Option ProcHandle
deriving DecidableEq, Repr

/-- Observable side effects of `DFInstance.open` / `DFInstance.run`. -/
inductive Effect
  | launch
  | invoke (args : List String)
  | sleep (units : Nat)
  | warn
deriving DecidableEq, Repr

/-- The relaunch test in `DFInstance.open`:
`self._proc is None or self._proc.returncode is not None` is the negation
of this liveness flag. -/
def procLive : Option ProcHandle → Bool
  | none => false
  | some p => p.returncode.isNone

/-- The warning printed by `DFInstance.open` when no save directory exists. -/
def warnNoSave : String :=
  "region1 not found - create world and embark for more useful results (fewer UI context failures)"

/-- Body of `DFInstance.run` after the `self.open()` call (source lines
104-110): `subprocess.run([dfhack-run, *commands])`, then clear `self._proc`
when stdout starts with the crash sentinel, then return `out`. -/
def sendCmd (resp : List String → Int × String) (s : DFState) (args : List String) :
    DFState × (Int × String) × List Effect :=
  let out := resp args
  let s' := if pyStartsWith out.2 sentinelStr then { s with proc := none } else s
  (s', out, [Effect.invoke args])

/-- `DFInstance.open` (source lines 75-98).  `hasSave` is the
`path.isdir(.../data/save/region1)` probe.  When the tracked process is not
live, launch a fresh process and, if a save exists, run
`self.run('load-save', 'region1', safe=False)` then `time.sleep(10)`,
otherwise print the warning.  The nested `self.run` call unfolds to
`sendCmd`: its `assert` passes (two arguments) and its inner `self.open()`
is a no-op because the just-launched process is live. -/
def DFInstance.openProc (hasSave : Bool) (resp : List String → Int × String)
    (s : DFState) : DFState × List Effect :=
  if procLive s.proc then (s, [])
  else
    let s₁ : DFState := { s with proc := some { returncode := none } }
    if hasSave then
      let (s₂, _, evs) := sendCmd resp s₁ ["load-save", "region1"]
      (s₂, Effect.launch :: evs ++ [Effect.sleep 10])
    else
      (s₁, [Effect.launch, Effect.warn])

/-- `DFInstance.run` (source lines 100-110): `assert commands` (modelled as
`none` on an empty argument vector), `self.open()`, then the send/sentinel
logic of `sendCmd`.  The `safe` keyword argument is accepted, as in the
source signature, and never read by the body. -/
def DFInstance.run (hasSave : Bool) (resp : List String → Int × String)
    (s : DFState) (args : List String) (safe : Bool) :
    Option (DFState × (Int × String) × List Effect) :=
  if args.isEmpty then none
  else
    let (s₁, evs₁) := DFInstance.openProc hasSave resp s
    let (s₂, out, evs₂) := sendCmd resp s₁ args
    some (s₂, out, evs₁ ++ evs₂)

/-! ## The driver loop of `check`

`results = collections.defaultdict(dict)`: a `Report` maps each category to
an association list with Python-dict insertion semantics (overwrite keeps
the position, a new key is appended). -/

/-- The nested report mapping: category → (command → output). -/
def Report := OutcomeCategory → List (String × String)

/-- Python dict insertion `d[k] = v`. -/
def insertOverwrite (m : List (String × String)) (k v : String) : List (String × String) :=
  if m.any (fun p => p.1 == k) then
    m.map (fun p => if p.1 == k then (k, v) else p)
  else
    m ++ [(k, v)]

/-- `results[category][cmd] = out` on the nested mapping. -/
def recordResult (r : Report) (cat : OutcomeCategory) (cmd out : String) : Report :=
  fun c => if c = cat then insertOverwrite (r c) cmd out else r c

/-- One iteration of the loop in `check` (source lines 140-155):
`proc = hack(cmd)`, decode and normalize `\r\n`, classify, record.
The `hack(cmd)` call is `DFInstance.run` at the singleton vector `[cmd]` with
the default `safe=True`, and never hits the `assert`. -/
def checkStep (hasSave : Bool) (resp : List String → Int × String)
    (sr : DFState × Report) (cmd : String) : DFState × Report :=
  match DFInstance.run hasSave resp sr.1 [cmd] true with
  | none => sr
  | some (s', res, _) =>
    let out := pyReplace res.2 "\r\n" "\n"
    (s', recordResult sr.2 (classify cmd res.1 out) cmd out)

/-- The full loop of `check` over an already-enumerated command list,
starting from a supervisor with no tracked process and an empty report. -/
def checkRun (hasSave : Bool) (resp : List String → Int × String)
    (cmds : List String) : Report :=
  (cmds.foldl (checkStep hasSave resp) (⟨none⟩, fun _ => [])).2

/-- The key set of one category bucket. -/
def keysOf (r : Report) (cat : OutcomeCategory) : List String :=
  (r cat).map Prod.fst

/-- The category `check` files a command under, given the oracle. -/
def targetCat (resp : List String → Int × String) (cmd : String) : OutcomeCategory :=
  classify cmd (resp [cmd]).1 (pyReplace (resp [cmd]).2 "\r\n" "\n")

/-! ## Helper lemmas -/

theorem pyIndex_eq_none (target : String) (ls : List String)
    (h : ∀ l ∈ ls, l ≠ target) : pyIndex target ls = none := by
  induction ls with
  | nil => rfl
  | cons a as ih =>
    have ha : a ≠ target := h a (List.mem_cons_self a as)
    simp [pyIndex, ha, ih (fun l hl => h l (List.mem_cons_of_mem a hl))]

/-! ## C1: the classifier is a total function and exit code 0 wins -/

/-- C1: the outcome classifier is deterministic and total — for every
(exit code, output) pair exactly one `OutcomeCategory` is returned — and
exit code 0 always yields `ok`, whatever the output text (even the crash
sentinel or a later signal). -/
theorem classify_total_and_zero_exit_ok (cmd : String) (ec : Int) (out : String) :
    (∃! cat : OutcomeCategory, classify cmd ec out = cat) ∧
      classify cmd 0 out = .ok :=
  ⟨⟨classify cmd ec out, rfl, fun _ h => h.symm⟩, rfl⟩

/-! ## C3: `crashed_DF` requires the exact sentinel as a prefix -/

/-- C3: past checks 1 and 2 (non-zero exit code, no script-traceback match),
the result is `crashed` exactly when the output starts with the sentinel
string, so any near-miss (leading whitespace, truncation) is not `crashed`. -/
theorem classify_crashed_iff_sentinel (cmd : String) (ec : Int) (out : String)
    (hec : ec ≠ 0) (htb : strContains out ("/hack/scripts/" ++ cmd) = false) :
    classify cmd ec out = .crashed ↔ pyStartsWith out sentinelStr = true := by
  have h0 : (ec == 0) = false := by simpa using hec
  cases hs : pyStartsWith out sentinelStr with
  | true => simp [classify, h0, htb, hs]
  | false =>
    simp only [classify, h0, htb, hs, Bool.false_eq_true, if_false]
    constructor
    · intro h
      split at h <;> simp_all
    · intro h
      exact absurd h (by simp)

/-- Witness for C3 at the spec's own scenario: command `crashy`, exit code 1,
output exactly the sentinel. -/
theorem classify_crashed_iff_sentinel_witness :
    (1 : Int) ≠ 0 ∧ strContains sentinelStr ("/hack/scripts/" ++ "crashy") = false ∧
      (classify "crashy" 1 sentinelStr = .crashed ↔
        pyStartsWith sentinelStr sentinelStr = true) :=
  ⟨by decide, by decide,
    classify_crashed_iff_sentinel "crashy" 1 sentinelStr (by decide) (by decide)⟩

/-! ## C4: the `wrong_UI_context` heuristic

The source computes `firstline = out.split('\n')[0].strip()` and then tests
`' UI' in firstline or 'cursor' in firstline.lower()`: both tests run on the
*trimmed* first line.  The claim's `" UI"` test on the *untrimmed* first line
is refuted below and the trimmed version is proved. -/

/-- C4 counterexample: at `(cmd, ec, out) = ("c", 1, " UI boo")` the result
reaches check 4 and the untrimmed first line contains `" UI"`, so the claim
as stated demands `wrongContext`; the code returns `failed`, because the
trimmed first line `"UI boo"` contains neither `" UI"` nor `"cursor"`. -/
theorem classify_wrongContext_untrimmed_counterexample :
    (1 : Int) ≠ 0 ∧
      strContains " UI boo" ("/hack/scripts/" ++ "c") = false ∧
      pyStartsWith " UI boo" sentinelStr = false ∧
      strContains (firstLine " UI boo") " UI" = true ∧
      classify "c" 1 " UI boo" ≠ .wrongContext := by decide

/-- C4 amended: past checks 1-3, the result is `wrongContext` exactly when
the **trimmed** first line contains `" UI"`, or its lowercasing contains
`"cursor"`; otherwise `failed`. -/
theorem classify_wrongContext_iff_trimmed (cmd : String) (ec : Int) (out : String)
    (hec : ec ≠ 0) (htb : strContains out ("/hack/scripts/" ++ cmd) = false)
    (hsent : pyStartsWith out sentinelStr = false) :
    (classify cmd ec out = .wrongContext ↔
        (strContains (pyStrip (firstLine out)) " UI" = true ∨
          strContains (pyLower (pyStrip (firstLine out))) "cursor" = true)) ∧
      (classify cmd ec out = .wrongContext ∨ classify cmd ec out = .failed) := by
  have h0 : (ec == 0) = false := by simpa using hec
  cases hui : strContains (pyStrip (firstLine out)) " UI" <;>
    cases hcur : strContains (pyLower (pyStrip (firstLine out))) "cursor" <;>
      simp [classify, h0, htb, hsent, hui, hcur]

/-- Witness for C4's amended theorem at the spec's scenario: command
`gui/foo`, exit code 1, output `"Error: invalid UI state\n"`. -/
theorem classify_wrongContext_iff_trimmed_witness :
    (1 : Int) ≠ 0 ∧
      strContains "Error: invalid UI state\n" ("/hack/scripts/" ++ "gui/foo") = false ∧
      pyStartsWith "Error: invalid UI state\n" sentinelStr = false ∧
      ((classify "gui/foo" 1 "Error: invalid UI state\n" = .wrongContext ↔
          (strContains (pyStrip (firstLine "Error: invalid UI state\n")) " UI" = true ∨
            strContains (pyLower (pyStrip (firstLine "Error: invalid UI state\n"))) "cursor"
              = true)) ∧
        (classify "gui/foo" 1 "Error: invalid UI state\n" = .wrongContext ∨
          classify "gui/foo" 1 "Error: invalid UI state\n" = .failed)) :=
  ⟨by decide, by decide, by decide,
    classify_wrongContext_iff_trimmed "gui/foo" 1 "Error: invalid UI state\n"
      (by decide) (by decide) (by decide)⟩

/-! ## C6: a missing `plugins:` marker fails loudly -/

/-- C6: if no (rstripped) line of the enumeration response equals the
literal marker `"plugins:"`, then `get_commands` fails (the `ValueError`
of `lines.index`), rather than returning an empty or partial list. -/
theorem get_commands_none_of_no_marker (text : String)
    (h : ∀ l ∈ (pySplit text "\n").map pyRstrip, l ≠ "plugins:") :
    get_commands text = none := by
  unfold get_commands
  simp [pyIndex_eq_none "plugins:" ((pySplit text "\n").map pyRstrip) h]

/-- Witness for C6 at a concrete marker-less response. -/
theorem get_commands_none_of_no_marker_witness :
    (∀ l ∈ (pySplit "DFHack commands:\n  reveal - y" "\n").map pyRstrip, l ≠ "plugins:") ∧
      get_commands "DFHack commands:\n  reveal - y" = none :=
  ⟨by decide, get_commands_none_of_no_marker "DFHack commands:\n  reveal - y" (by decide)⟩

/-! ## C7: enumeration filtering -/

/-- C7: `get_commands` keeps exactly the lines after `plugins:` indented by
two spaces (not three), takes the token before the first `" - "`, and
applies the denylist by prefix.  On the spec's listing it returns exactly
`["reveal"]` (`devel/foo` dropped by the `devel/` prefix rule, `stonesensei`
dropped by the `stonesense` prefix rule); on the second listing the
triple-indented line is dropped while `mid ssense`, which contains but does
not start with a denylist entry, is kept. -/
theorem get_commands_filtering :
    get_commands "plugins:\n  devel/foo - x\n  reveal - y\n  stonesensei - z"
        = some ["reveal"] ∧
      get_commands "plugins:\n   deep - a\n  mid ssense - b\n  ok - c"
        = some ["mid ssense", "ok"] := by decide

/-! ## C8: `DFInstance.open` is idempotent on a live process -/

/-- C8: when a live process is tracked, `DFInstance.open` is a no-op: it
launches nothing, issues no `load-save` command, sleeps for no settle time,
warns about nothing, and leaves the supervisor state unchanged. -/
theorem openProc_noop_of_live (hasSave : Bool) (resp : List String → Int × String)
    (s : DFState) (hlive : procLive s.proc = true) :
    DFInstance.openProc hasSave resp s = (s, []) := by
  unfold DFInstance.openProc
  simp [hlive]

/-- Witness for C8: a supervisor tracking a process whose `returncode` is
still `None` (live). -/
theorem openProc_noop_of_live_witness :
    procLive (DFState.mk (some ⟨none⟩)).proc = true ∧
      DFInstance.openProc true (fun _ => (0, "")) ⟨some ⟨none⟩⟩ = (⟨some ⟨none⟩⟩, []) :=
  ⟨by decide, openProc_noop_of_live true (fun _ => (0, "")) ⟨some ⟨none⟩⟩ (by decide)⟩

/-! ## C2: the sentinel response clears the handle and is still returned -/

/-- C2: when the control channel answers an invocation with exactly the
sentinel string, `DFInstance.run` clears the tracked process handle
(`self._proc = None`) and still returns that result to the caller (no
exception, no retry); and from the cleared state the next
`DFInstance.open` relaunches the process. -/
theorem run_sentinel_clears_and_returns (hasSave safe : Bool)
    (resp : List String → Int × String) (s : DFState) (args : List String) (code : Int)
    (hargs : args ≠ []) (hresp : resp args = (code, sentinelStr)) :
    (∃ evs, DFInstance.run hasSave resp s args safe =
        some (⟨none⟩, (code, sentinelStr), evs)) ∧
      Effect.launch ∈ (DFInstance.openProc hasSave resp ⟨none⟩).2 := by
  constructor
  · rcases hop : DFInstance.openProc hasSave resp s with ⟨s₁, evs₁⟩
    refine ⟨evs₁ ++ [Effect.invoke args], ?_⟩
    have hpre : pyStartsWith sentinelStr sentinelStr = true := by decide
    unfold DFInstance.run sendCmd
    simp [hargs, hop, hresp, hpre]
  · unfold DFInstance.openProc
    rcases hasSave with _ | _ <;> simp [procLive, sendCmd]

/-- Witness for C2 at the spec's scenario: the host answers `["crashy"]`
with the exact sentinel string. -/
theorem run_sentinel_clears_and_returns_witness :
    (["crashy"] : List String) ≠ [] ∧
      ((∃ evs, DFInstance.run false (fun _ => (1, sentinelStr)) ⟨some ⟨none⟩⟩ ["crashy"] true =
          some (⟨none⟩, (1, sentinelStr), evs)) ∧
        Effect.launch ∈ (DFInstance.openProc false (fun _ => (1, sentinelStr)) ⟨none⟩).2) :=
  ⟨by decide,
    run_sentinel_clears_and_returns false true (fun _ => (1, sentinelStr)) ⟨some ⟨none⟩⟩
      ["crashy"] 1 (by decide) rfl⟩

/-! ## C9: the implicit `assert commands` precondition of `run` -/

/-- C9: `DFInstance.run` on an empty argument vector fails its `assert`
before any process interaction (no launch, no invocation — the failure
carries no trace), while every non-empty argument vector passes the
assertion and produces a result. -/
theorem run_assert_nonempty (hasSave safe : Bool) (resp : List String → Int × String)
    (s : DFState) (args : List String) (hargs : args ≠ []) :
    DFInstance.run hasSave resp s [] safe = none ∧
      (DFInstance.run hasSave resp s args safe).isSome = true := by
  constructor
  · rfl
  · rcases hop : DFInstance.openProc hasSave resp s with ⟨s₁, evs₁⟩
    unfold DFInstance.run
    simp [hargs, hop, sendCmd]

/-- Witness for C9 at the one-element vector `["reveal"]`. -/
theorem run_assert_nonempty_witness :
    (["reveal"] : List String) ≠ [] ∧
      (DFInstance.run false (fun _ => (0, "")) ⟨none⟩ [] true = none ∧
        (DFInstance.run false (fun _ => (0, "")) ⟨none⟩ ["reveal"] true).isSome = true) :=
  ⟨by decide,
    run_assert_nonempty false true (fun _ => (0, "")) ⟨none⟩ ["reveal"] (by decide)⟩

/-! ## C10: the `safe` keyword argument is dead -/

/-- C10: `DFInstance.run` never reads its `safe` keyword argument — for
every save probe, oracle, state and argument vector, running with
`safe=True` and `safe=False` produces identical state, result and trace. -/
theorem run_safe_ignored (hasSave : Bool) (resp : List String → Int × String)
    (s : DFState) (args : List String) :
    DFInstance.run hasSave resp s args true = DFInstance.run hasSave resp s args false := rfl

/-! ## C5: the final report partitions the command set -/

theorem mem_keys_insertOverwrite (m : List (String × String)) (k v k' : String) :
    k' ∈ (insertOverwrite m k v).map Prod.fst ↔ k' ∈ m.map Prod.fst ∨ k' = k := by
  unfold insertOverwrite
  by_cases h : m.any (fun p => p.1 == k)
  · have hkeys : (m.map (fun p => if p.1 == k then (k, v) else p)).map Prod.fst
        = m.map Prod.fst := by
      rw [List.map_map]
      apply List.map_congr_left
      intro p _
      by_cases hpk : p.1 = k
      · simp [hpk]
      · simp [hpk]
    simp only [h, if_true, hkeys]
    constructor
    · exact Or.inl
    · rintro (h' | rfl)
      · exact h'
      · rcases List.any_eq_true.mp h with ⟨p, hp, hpk⟩
        exact List.mem_map.mpr ⟨p, hp, beq_iff_eq.mp hpk⟩
  · simp [h]

theorem mem_keys_recordResult (r : Report) (cat' : OutcomeCategory) (cmd out : String)
    (cat : OutcomeCategory) (c : String) :
    c ∈ keysOf (recordResult r cat' cmd out) cat ↔
      c ∈ keysOf r cat ∨ (cat = cat' ∧ c = cmd) := by
  simp only [recordResult, keysOf]
  by_cases h : cat = cat'
  · subst h
    rw [if_pos rfl, mem_keys_insertOverwrite]
    simp
  · rw [if_neg h]
    simp [h]

theorem checkStep_snd (hasSave : Bool) (resp : List String → Int × String)
    (s : DFState) (r : Report) (cmd : String) :
    (checkStep hasSave resp (s, r) cmd).2 =
      recordResult r (targetCat resp cmd) cmd (pyReplace (resp [cmd]).2 "\r\n" "\n") := by
  rcases hop : DFInstance.openProc hasSave resp s with ⟨s₁, evs₁⟩
  unfold checkStep DFInstance.run sendCmd targetCat
  simp [hop]

theorem mem_keys_checkFold (hasSave : Bool) (resp : List String → Int × String)
    (cmds : List String) (s : DFState) (r : Report) (cat : OutcomeCategory) (c : String) :
    c ∈ keysOf (cmds.foldl (checkStep hasSave resp) (s, r)).2 cat ↔
      c ∈ keysOf r cat ∨ (c ∈ cmds ∧ targetCat resp c = cat) := by
  induction cmds generalizing s r with
  | nil => simp
  | cons a as ih =>
    rw [List.foldl_cons]
    rcases hstep : checkStep hasSave resp (s, r) a with ⟨s', r'⟩
    have hr' : r' = recordResult r (targetCat resp a) a (pyReplace (resp [a]).2 "\r\n" "\n") := by
      have hsnd := checkStep_snd hasSave resp s r a
      rw [hstep] at hsnd
      exact hsnd
    subst hr'
    rw [ih, mem_keys_recordResult]
    constructor
    · rintro ((hk | ⟨hcat, rfl⟩) | ⟨hmem, htc⟩)
      · exact Or.inl hk
      · exact Or.inr ⟨List.mem_cons_self c as, hcat.symm⟩
      · exact Or.inr ⟨List.mem_cons_of_mem a hmem, htc⟩
    · rintro (hk | ⟨hmem, htc⟩)
      · exact Or.inl (Or.inl hk)
      · rcases List.mem_cons.mp hmem with rfl | hmem'
        · exact Or.inl (Or.inr ⟨htc.symm, rfl⟩)
        · exact Or.inr ⟨hmem', htc⟩

theorem mem_keys_checkRun (hasSave : Bool) (resp : List String → Int × String)
    (cmds : List String) (cat : OutcomeCategory) (c : String) :
    c ∈ keysOf (checkRun hasSave resp cmds) cat ↔
      c ∈ cmds ∧ targetCat resp c = cat := by
  unfold checkRun
  rw [mem_keys_checkFold]
  simp [keysOf]

/-- C5: for every duplicate-free command list, the report built by `check`
partitions the input set: each command appears as a key in exactly one
category bucket, and the union of all buckets' key sets is exactly the
input set. -/
theorem checkRun_partitions (hasSave : Bool) (resp : List String → Int × String)
    (cmds : List String) (hnd : cmds.Nodup) :
    (∀ c ∈ cmds, ∃! cat : OutcomeCategory,
        c ∈ keysOf (checkRun hasSave resp cmds) cat) ∧
      ∀ c, (∃ cat, c ∈ keysOf (checkRun hasSave resp cmds) cat) ↔ c ∈ cmds := by
  refine ⟨fun c hc => ?_, fun c => ⟨fun h => ?_, fun hc => ?_⟩⟩
  · exact ⟨targetCat resp c,
      (mem_keys_checkRun hasSave resp cmds (targetCat resp c) c).mpr ⟨hc, rfl⟩,
      fun cat hcat => ((mem_keys_checkRun hasSave resp cmds cat c).mp hcat).2.symm⟩
  · rcases h with ⟨cat, hcat⟩
    exact ((mem_keys_checkRun hasSave resp cmds cat c).mp hcat).1
  · exact ⟨targetCat resp c,
      (mem_keys_checkRun hasSave resp cmds (targetCat resp c) c).mpr ⟨hc, rfl⟩⟩

/-- Witness for C5 at a concrete two-command run. -/
theorem checkRun_partitions_witness :
    (["reveal", "die"] : List String).Nodup ∧
      ((∀ c ∈ (["reveal", "die"] : List String), ∃! cat : OutcomeCategory,
          c ∈ keysOf (checkRun false (fun _ => (0, "")) ["reveal", "die"]) cat) ∧
        ∀ c, (∃ cat, c ∈ keysOf (checkRun false (fun _ => (0, "")) ["reveal", "die"]) cat) ↔
          c ∈ (["reveal", "die"] : List String)) :=
  ⟨by decide, checkRun_partitions false (fun _ => (0, "")) ["reveal", "die"] (by decide)⟩

example : classify "x" 0 sentinelStr = .ok := by decide
example : classify "x" 1 sentinelStr = .crashed := by decide
example : classify "quickfort" 1 "/hack/scripts/quickfort.lua:12: error\nmore" = .scriptTraceback := by
  decide
example : classify "gui/foo" 1 "Error: invalid UI state\n" = .wrongContext := by decide
example : classify "c" 1 " UI boo" = .failed := by decide
example : get_commands "plugins:\n  devel/foo - x\n  reveal - y\n  stonesensei - z" =
    some ["reveal"] := by decide
example : pyReplace "a\r\nb" "\r\n" "\n" = "a\nb" := by decide

end DFFuzz
